import Mathlib

/-!
Verification of the kraken2rfb report core: transaction classification
(`src/report/mod.rs`), the record model and serializer
(`src/report/transactions.rs`) and the field/row encoding
(`src/report/encoding.rs`).

Modelling conventions:
* `rust_decimal::Decimal` monetary values are modelled as exact rationals
  (`ℚ`); the spec states arbitrary-precision decimal arithmetic is intended.
  The one place where the mantissa/scale representation itself is observable
  (`int_part`, which reads `mantissa()` after `trunc()`) uses the explicit
  representation `RDecimal`.
* Rust panics are modelled as `Except.error` carrying the panic message, so
  the classifier returns `Except String (List Transaction)`.
* The exchange-rate collaborator (`get_exchange_rate`, network I/O in
  `src/exchange_rate.rs`) and the build-time generated pair table
  (`KRAKEN_PAIRS`, produced by `build.rs` from Kraken's API) are injected as
  function parameters, as the spec describes them (external collaborators).
* `chrono::DateTime::from_timestamp(..).date_naive()` is modelled by
  Euclidean division into days followed by the standard civil-from-days
  calendar algorithm.
-/

deriving instance DecidableEq for Except

namespace K2R

/-- Calendar date, mirroring `chrono::NaiveDate` as a plain
year/month/day triple. -/
structure Date where
  year : Int
  month : Nat
  day : Nat
deriving DecidableEq, Repr

/-- Convert a count of days since 1970-01-01 to a civil date
(the standard civil-from-days algorithm used by `chrono`).
All divisions after the era split act on non-negative values. -/
def civilFromDays (z0 : Int) : Date :=
  let z := z0 + 719468
  let era := Int.fdiv z 146097
  let doe := z - era * 146097
  let yoe := Int.fdiv (doe - Int.fdiv doe 1460 + Int.fdiv doe 36524 - Int.fdiv doe 146096) 365
  let y := yoe + era * 400
  let doy := doe - (365 * yoe + Int.fdiv yoe 4 - Int.fdiv yoe 100)
  let mp := Int.fdiv (5 * doy + 2) 153
  let d := doy - Int.fdiv (153 * mp + 2) 5 + 1
  let m := mp + (if mp < 10 then 3 else -9)
  ⟨y + (if m ≤ 2 then 1 else 0), m.toNat, d.toNat⟩

/-- Date of a unix timestamp in seconds:
`DateTime::from_timestamp(secs, 0).unwrap().date_naive()`. -/
def timestampToDate (secs : Int) : Date :=
  civilFromDays (Int.fdiv secs 86400)

/-- Two's-complement wrap-around of an integer into the `i64` range,
modelling Rust's `as i64` cast from a wider integer. -/
def wrapI64 (n : Int) : Int :=
  (n + 2 ^ 63) % 2 ^ 64 - 2 ^ 63

/-- Explicit mantissa/scale representation of a `rust_decimal::Decimal`:
the value is `mantissa * 10 ^ (-scale)`. -/
structure RDecimal where
  mantissa : Int
  scale : Nat
deriving DecidableEq, Repr

/-- Decimal::trunc: drop the fractional part, rounding toward zero;
the result always has scale 0. -/
def RDecimal.trunc (d : RDecimal) : RDecimal :=
  ⟨Int.tdiv d.mantissa (10 ^ d.scale), 0⟩

/-- Function `int_part` of `src/report/mod.rs`: truncate the decimal,
assert the result has scale 0 (modelled as the error case), and return
`d.mantissa() as i64` — note the cast silently wraps mantissas outside
the `i64` range. -/
def int_part (d : RDecimal) : Except String Int :=
  let t := d.trunc
  if t.scale = 0 then .ok (wrapI64 t.mantissa) else .error "Decimal must be an integer"

/-- Fiat currency table of `is_fiat` in `src/kraken.rs`. -/
def FIAT_CURRENCIES : List String :=
  ["USD", "ZUSD", "EUR", "ZEUR", "GBP", "ZGBP", "JPY", "ZJPY", "CAD", "ZCAD",
   "AUD", "ZAUD", "MXN", "ZMXN", "CHF", "ZCHF", "BRL", "ZBRL", "ARS", "ZARS",
   "AED", "ZAED"]

/-- Function `is_fiat` of `src/kraken.rs`: membership of the upper-cased
ticker in the fiat table. -/
def is_fiat (ticker : String) : Bool :=
  FIAT_CURRENCIES.contains ticker.toUpper

/-- Decimal digits of a natural number, most significant first, with a
structural recursion budget `m` (any `m > n` suffices, see
`natDigitsBound_stable`): the standard decimal rendering used by both
Rust and Lean. -/
def natDigitsBound : Nat → Nat → List Char
  | 0, _ => []
  | m + 1, n =>
    if n < 10 then [Char.ofNat (48 + n)]
    else natDigitsBound m (n / 10) ++ [Char.ofNat (48 + n % 10)]

/-- Decimal digits of a natural number, most significant first. -/
def natDigits (n : Nat) : List Char :=
  natDigitsBound (n + 1) n

/-- Decimal rendering of a natural number as a string. -/
def natRepr (n : Nat) : String :=
  String.mk (natDigits n)

/-- Zero-pad a string on the left to a minimum width, as Rust's `{:0w}`
format does for the digits of a non-negative number. -/
def padZeros (w : Nat) (s : String) : String :=
  String.mk (List.replicate (w - s.length) '0') ++ s

/-- Rust `{:0w}` formatting of a natural number. -/
def rustPadNat (w : Nat) (n : Nat) : String :=
  padZeros w (natRepr n)

/-- Rust `{:0w}` formatting of an integer: the sign occupies part of the
width and the zero padding goes between the sign and the digits. -/
def rustPadInt (w : Nat) (n : Int) : String :=
  if n < 0 then "-" ++ padZeros (w - 1) (natRepr n.natAbs) else padZeros w (natRepr n.natAbs)

/-- Exactly `p` decimal digits of `n` (its value modulo `10 ^ p`),
most significant first: the fractional digits of a fixed-point rendering. -/
def fracDigits : Nat → Nat → List Char
  | 0, _ => []
  | p + 1, n => fracDigits p (n / 10) ++ [Char.ofNat (48 + n % 10)]

/-- Round a rational to the nearest integer, ties to even — the
`MidpointNearestEven` strategy of `rust_decimal`'s `round_dp`. -/
def roundHalfEven (x : ℚ) : Int :=
  let f := ⌊x⌋
  let r := x - f
  if r < 1 / 2 then f
  else if 1 / 2 < r then f + 1
  else if f % 2 = 0 then f else f + 1

/-- Enum `Field` of `src/report/encoding.rs` (the lifetime-bound borrows
become plain values). -/
inductive Field where
  | date (d : Date)
  | decimalNumber (value : ℚ) (precision : Nat)
  | alphaNumber (value : String)
  | empty
deriving DecidableEq, Repr

/-- The checked conversion `impl From<&str> for Field`: panics (modelled
as `Except.error`) when the value contains the delimiter character. -/
def Field.fromStr (value : String) : Except String Field :=
  if value.contains '|' then .error "Field value cannot contain the delimiter character"
  else .ok (.alphaNumber value)

/-- Display implementation `Field::fmt` of `src/report/encoding.rs`:
dates as zero-padded day/month/year, decimals rounded with `round_dp`
then rendered with exactly `precision` fractional digits and a comma as
decimal separator, text verbatim, empty as the empty string.
(The embedding identifies `rust_decimal`'s negative zero with zero.) -/
def Field.fmt : Field → String
  | .date d => rustPadNat 2 d.day ++ rustPadNat 2 d.month ++ rustPadInt 4 d.year
  | .decimalNumber v p =>
    let n := roundHalfEven (v * 10 ^ p)
    let sign := if n < 0 then "-" else ""
    let ip := n.natAbs / 10 ^ p
    let fp := n.natAbs % 10 ^ p
    if p = 0 then sign ++ natRepr ip
    else sign ++ natRepr ip ++ "," ++ String.mk (fracDigits p fp)
  | .alphaNumber v => v
  | .empty => ""

/-- Function `write_register_row` of `src/report/encoding.rs`: join the
formatted fields with the pipe delimiter and terminate with CRLF. The
returned string is what is written to the output stream. -/
def write_register_row (fields : List Field) : String :=
  String.intercalate "|" (fields.map Field.fmt) ++ "\r\n"

/-- Struct `TransactionBase` of `src/report/transactions.rs`. -/
structure TransactionBase where
  operation_date : Date
  operation_fees : Option ℚ
  crypto_symbol : String
  crypto_amount : ℚ
deriving DecidableEq, Repr

/-- Struct `ExchangeInfo` of `src/report/transactions.rs`. -/
structure ExchangeInfo where
  name : String
  url : String
  country : String
deriving DecidableEq, Repr

/-- Method `ExchangeInfo::fields`: the exchange fields in report order.
Note the values are wrapped as `AlphaNumber` directly, without the
checked `From<&str>` conversion. -/
def ExchangeInfo.fields (e : ExchangeInfo) : List Field :=
  [.alphaNumber e.name, .alphaNumber e.url, .alphaNumber e.country]

/-- Method `TransactionBase::common_fields`: date, record category code,
optional fee (2 decimals), asset symbol, amount (10 decimals). -/
def TransactionBase.common_fields (b : TransactionBase) (record_code : String) : List Field :=
  [.date b.operation_date,
   .alphaNumber record_code,
   (match b.operation_fees with
    | none => .empty
    | some fees => .decimalNumber fees 2),
   .alphaNumber b.crypto_symbol,
   .decimalNumber b.crypto_amount 10]

/-- Struct `PurchaseTransaction` (record 0110). -/
structure PurchaseTransaction where
  base : TransactionBase
  operation_value : ℚ
  buyer_exchange : ExchangeInfo
deriving DecidableEq, Repr

/-- Struct `SaleTransaction` (record 0120). -/
structure SaleTransaction where
  base : TransactionBase
  operation_value : ℚ
  seller_exchange : ExchangeInfo
deriving DecidableEq, Repr

/-- Struct `SwapTransaction` (record 0210). -/
structure SwapTransaction where
  operation_date : Date
  operation_fees : Option ℚ
  received_crypto_symbol : String
  received_crypto_amount : ℚ
  given_crypto_symbol : String
  given_crypto_amount : ℚ
  exchange : ExchangeInfo
deriving DecidableEq, Repr

/-- Struct `TransferToExchangeTransaction` (record 0410). -/
structure TransferToExchangeTransaction where
  base : TransactionBase
  origin_wallet : Option String
  origin_exchange_name : Option String
deriving DecidableEq, Repr

/-- Struct `WithdrawalFromExchangeTransaction` (record 0510). -/
structure WithdrawalFromExchangeTransaction where
  base : TransactionBase
  origin_exchange : ExchangeInfo
deriving DecidableEq, Repr

/-- Struct `CryptoPaymentReceiverTransaction` (record 0710). -/
structure CryptoPaymentReceiverTransaction where
  base : TransactionBase
  receiver_exchange : ExchangeInfo
deriving DecidableEq, Repr

/-- Struct `CryptoPaymentSenderTransaction` (record 0720). -/
structure CryptoPaymentSenderTransaction where
  base : TransactionBase
  sender_exchange : ExchangeInfo
deriving DecidableEq, Repr

/-- Enum `Transaction` of `src/report/transactions.rs`. -/
inductive Transaction where
  | purchase (t : PurchaseTransaction)
  | sale (t : SaleTransaction)
  | swap (t : SwapTransaction)
  | transferToExchange (t : TransferToExchangeTransaction)
  | withdrawalFromExchange (t : WithdrawalFromExchangeTransaction)
  | cryptoPaymentReceiver (t : CryptoPaymentReceiverTransaction)
  | cryptoPaymentSender (t : CryptoPaymentSenderTransaction)
deriving DecidableEq, Repr

/-- Method `Transaction::record_type`: the (record code, roman-numeral
category) pair of each variant. -/
def Transaction.record_type : Transaction → String × String
  | .purchase _ => ("0110", "I")
  | .sale _ => ("0120", "I")
  | .swap _ => ("0210", "II")
  | .transferToExchange _ => ("0410", "IV")
  | .withdrawalFromExchange _ => ("0510", "V")
  | .cryptoPaymentReceiver _ => ("0710", "VII")
  | .cryptoPaymentSender _ => ("0720", "VII")

/-- Field list assembled by `Transaction::write_transaction` for each
variant (the `fields` local of the method). -/
def Transaction.rowFields (tx : Transaction) : List Field :=
  let record_code := tx.record_type.1
  let category := tx.record_type.2
  match tx with
  | .purchase t =>
    [.alphaNumber record_code,
     .date t.base.operation_date,
     .alphaNumber category,
     .decimalNumber t.operation_value 2,
     (match t.base.operation_fees with
      | none => .empty
      | some fees => .decimalNumber fees 2),
     .alphaNumber t.base.crypto_symbol,
     .decimalNumber t.base.crypto_amount 10] ++ t.buyer_exchange.fields
  | .sale t =>
    [.alphaNumber record_code,
     .date t.base.operation_date,
     .alphaNumber category,
     .decimalNumber t.operation_value 2,
     (match t.base.operation_fees with
      | none => .empty
      | some fees => .decimalNumber fees 2),
     .alphaNumber t.base.crypto_symbol,
     .decimalNumber t.base.crypto_amount 12] ++ t.seller_exchange.fields
  | .swap t =>
    [.alphaNumber record_code,
     .date t.operation_date,
     .alphaNumber category,
     (match t.operation_fees with
      | none => .empty
      | some fees => .decimalNumber fees 2),
     .alphaNumber t.received_crypto_symbol,
     .decimalNumber t.received_crypto_amount 10,
     .alphaNumber t.given_crypto_symbol,
     .decimalNumber t.given_crypto_amount 10] ++ t.exchange.fields
  | .transferToExchange t =>
    [.alphaNumber record_code] ++ t.base.common_fields category ++
    [(match t.origin_wallet with
      | none => .empty
      | some w => .alphaNumber w),
     (match t.origin_exchange_name with
      | none => .empty
      | some n => .alphaNumber n)]
  | .withdrawalFromExchange t =>
    [.alphaNumber record_code] ++ t.base.common_fields category ++ t.origin_exchange.fields
  | .cryptoPaymentReceiver t =>
    [.alphaNumber record_code] ++ t.base.common_fields category ++ t.receiver_exchange.fields
  | .cryptoPaymentSender t =>
    [.alphaNumber record_code] ++ t.base.common_fields category ++ t.sender_exchange.fields

/-- Method `Transaction::write_transaction`: the row written to the
output stream for one transaction. -/
def Transaction.write_transaction (tx : Transaction) : String :=
  write_register_row tx.rowFields

/-- Function `kraken_exchange_info` of `src/report/mod.rs`. -/
def kraken_exchange_info : ExchangeInfo :=
  ⟨"Kraken", "https://www.kraken.com", "US"⟩

/-- Parsed form of a deposit or withdrawal JSON entry as read by
`process_kraken_data`: asset ticker, amount and fee (decimal strings,
modelled as exact rationals), unix time (`as_u64`). -/
structure LedgerRec where
  asset : String
  amount : ℚ
  fee : ℚ
  time : Nat
deriving Repr

/-- Parsed form of a trade JSON entry as read by `process_kraken_data`:
pair code, volume (base units), cost / fee (quote units), price
(quote per base), time (a decimal possibly with fractional seconds),
and the trade side string. -/
structure TradeRec where
  pair : String
  vol : ℚ
  cost : ℚ
  fee : ℚ
  price : ℚ
  time : RDecimal
  type_ : String
deriving Repr

/-- Signature of the injected exchange-rate collaborator
`get_exchange_rate(date, asset) -> Result<(actual_date, rate), e>`
(network code in `src/exchange_rate.rs`, external to the report core). -/
def Rate : Type :=
  Date → String → Except String (Date × ℚ)

/-- Signature of the pair resolver `kraken_pairs::parse_pair`, whose
`KRAKEN_PAIRS` table is generated at build time by `build.rs`; the spec
treats it as an injected read-only mapping from a pair code to the
(base, quote) tickers. -/
def PairTable : Type :=
  String → Option (String × String)

/-- Panic message of the exchange-rate failure branches of
`process_kraken_data` (dates are displayed ISO `YYYY-MM-DD` as by
chrono's `NaiveDate` Display). -/
def rateErrMsg (asset : String) (date : Date) (e : String) : String :=
  "Failed to get exchange rate for " ++ asset ++ " on " ++
    (rustPadInt 4 date.year ++ "-" ++ rustPadNat 2 date.month ++ "-" ++ rustPadNat 2 date.day) ++
    ": " ++ e

/-- Deposit loop body of `process_kraken_data`: non-fiat deposits become
`TransferToExchange` records (fee kept as-is, no rate lookup, origin
unset); fiat deposits produce nothing. -/
def processDeposit (d : LedgerRec) : Option Transaction :=
  if is_fiat d.asset then none
  else
    some (.transferToExchange
      { base :=
          { operation_date := timestampToDate (wrapI64 d.time)
            operation_fees := some d.fee
            crypto_symbol := d.asset
            crypto_amount := d.amount }
        origin_wallet := none
        origin_exchange_name := none })

/-- Withdrawal loop body of `process_kraken_data`: non-fiat withdrawals
become `WithdrawalFromExchange` records with the fee converted to the
reporting currency through the rate lookup; a lookup failure is a panic
(modelled as `Except.error`); fiat withdrawals produce nothing. -/
def processWithdrawal (rate : Rate) (w : LedgerRec) : Except String (Option Transaction) :=
  if is_fiat w.asset then .ok none
  else
    let time := timestampToDate (wrapI64 w.time)
    match rate time w.asset with
    | .error e => .error (rateErrMsg w.asset time e)
    | .ok (_rate_date, brl_rate) =>
      .ok (some (.withdrawalFromExchange
        { base :=
            { operation_date := time
              operation_fees := some (w.fee * brl_rate)
              crypto_symbol := w.asset
              crypto_amount := w.amount }
          origin_exchange := kraken_exchange_info }))

/-- Trade loop body of `process_kraken_data`. The pair is resolved to
(base, quote); classification follows the fiat-ness of the two legs:
crypto/fiat trades become Purchase (buy) or Sale (sell) with net
amounts, crypto/crypto trades become Swap, a fiat base with crypto
quote panics, and fiat/fiat trades are skipped. The `unwrap` of
`parse_pair`, the `Unknown trade type` and `Unexpected Fiat-Crypto`
panics, the rate-lookup panics and the decimal division-by-zero panic
are all modelled as `Except.error`. -/
def processTrade (parse_pair : PairTable) (rate : Rate) (t : TradeRec) :
    Except String (Option Transaction) :=
  match parse_pair t.pair with
  | none => .error "called Option::unwrap() on a None value"
  | some (base, quote) =>
    match int_part t.time with
    | .error e => .error e
    | .ok secs =>
      let time := timestampToDate secs
      match is_fiat base, is_fiat quote with
      | false, true =>
        let operation_value := t.cost - t.fee
        if t.price = 0 then .error "Division by zero"
        else
          let crypto_amount := t.vol - t.fee / t.price
          match rate time quote with
          | .error e => .error (rateErrMsg quote time e)
          | .ok (_rate_date, brl_rate) =>
            if t.type_ = "buy" then
              .ok (some (.purchase
                { base :=
                    { operation_date := time
                      operation_fees := some (t.fee * brl_rate)
                      crypto_symbol := base
                      crypto_amount := crypto_amount }
                  operation_value := operation_value * brl_rate
                  buyer_exchange := kraken_exchange_info }))
            else if t.type_ = "sell" then
              .ok (some (.sale
                { base :=
                    { operation_date := time
                      operation_fees := some (t.fee * brl_rate)
                      crypto_symbol := base
                      crypto_amount := crypto_amount }
                  operation_value := operation_value * brl_rate
                  seller_exchange := kraken_exchange_info }))
            else .error ("Unknown trade type: " ++ t.type_)
      | false, false =>
        match rate time base with
        | .error e => .error (rateErrMsg base time e)
        | .ok (_rate_date, base_brl_rate) =>
          let operation_fees := some (t.fee * base_brl_rate)
          if t.type_ = "buy" then
            .ok (some (.swap
              { operation_date := time
                operation_fees := operation_fees
                received_crypto_symbol := base
                received_crypto_amount := t.vol
                given_crypto_symbol := quote
                given_crypto_amount := t.cost
                exchange := kraken_exchange_info }))
          else if t.type_ = "sell" then
            .ok (some (.swap
              { operation_date := time
                operation_fees := operation_fees
                received_crypto_symbol := quote
                received_crypto_amount := t.cost
                given_crypto_symbol := base
                given_crypto_amount := t.vol
                exchange := kraken_exchange_info }))
          else .error ("Unknown trade type: " ++ t.type_)
      | true, false => .error ("Unexpected Fiat-Crypto trade pair: " ++ t.pair)
      | true, true => .ok none

/-- Run a fallible per-record step over a list, collecting the produced
transactions in order and aborting on the first error — the semantics of
the panicking `for` loops of `process_kraken_data`. -/
def forEachCollect (f : α → Except String (Option Transaction)) :
    List α → Except String (List Transaction)
  | [] => .ok []
  | x :: xs =>
    match f x with
    | .error e => .error e
    | .ok none => forEachCollect f xs
    | .ok (some t) => (forEachCollect f xs).map (t :: ·)

/-- The three classification loops of `process_kraken_data`, before the
final sort: deposits, then withdrawals, then trades, each appending its
records in input order. -/
def classify (parse_pair : PairTable) (rate : Rate)
    (deposits withdrawals : List LedgerRec) (trades : List TradeRec) :
    Except String (List Transaction) :=
  let deps := deposits.filterMap processDeposit
  match forEachCollect (processWithdrawal rate) withdrawals with
  | .error e => .error e
  | .ok ws =>
    match forEachCollect (processTrade parse_pair rate) trades with
    | .error e => .error e
    | .ok ts => .ok (deps ++ ws ++ ts)

/-- Boolean sort key comparison used for the final
`transactions.sort_unstable_by_key(|t| t.record_type().0)`: ascending
lexicographic order on the record code string. -/
def recordKeyLe (a b : Transaction) : Bool :=
  decide (a.record_type.1 ≤ b.record_type.1)

/-- Contract of Rust's `sort_unstable_by_key`: the output is a
permutation of the input that is sorted by the key. The order of equal
elements is explicitly NOT guaranteed ("This sort is unstable (i.e.,
may reorder equal elements)"), so the contract is a relation, not a
function; `List.mergeSort` below is one executable realization of it. -/
def sortUnstableByKeyContract (input output : List Transaction) : Prop :=
  output.Perm input ∧ output.Pairwise (fun a b => recordKeyLe a b = true)

/-- Function `process_kraken_data` of `src/report/mod.rs`: classify the
three input collections, then sort the records by record code
(`sort_unstable_by_key` realized here by `mergeSort`, a sorted
permutation as the Rust contract guarantees). -/
def process_kraken_data (parse_pair : PairTable) (rate : Rate)
    (deposits withdrawals : List LedgerRec) (trades : List TradeRec) :
    Except String (List Transaction) :=
  (classify parse_pair rate deposits withdrawals trades).map
    (fun l => l.mergeSort recordKeyLe)

/-- Function `generate_report` of `src/report/mod.rs`: the bytes written
to the output file — one row per transaction, in order. -/
def generate_report (transactions : List Transaction) : String :=
  String.join (transactions.map Transaction.write_transaction)

/-! Helper lemmas about the classifier combinators. -/

/-- The scale-0 assertion inside `int_part` can never fire: `trunc`
always produces scale 0, so `int_part` always succeeds, returning the
`as i64`-wrapped integer part. -/
theorem int_part_eq (d : RDecimal) :
    int_part d = .ok (wrapI64 (Int.tdiv d.mantissa (10 ^ d.scale))) := rfl

theorem forEachCollect_ok_of_mem {f : α → Except String (Option Transaction)} :
    ∀ {l : List α} {res}, forEachCollect f l = .ok res →
      ∀ x ∈ l, ∃ o, f x = .ok o := by
  intro l
  induction l with
  | nil => intro res _ x hx; cases hx
  | cons a as ih =>
    intro res h x hx
    unfold forEachCollect at h
    cases hfa : f a with
    | error e => rw [hfa] at h; cases h
    | ok o =>
      rw [hfa] at h
      rcases List.mem_cons.mp hx with rfl | hx2
      · exact ⟨o, hfa⟩
      · cases o with
        | none => exact ih h x hx2
        | some t =>
          cases hrest : forEachCollect f as with
          | error e => rw [hrest] at h; cases h
          | ok res2 => exact ih hrest x hx2

theorem mem_forEachCollect {f : α → Except String (Option Transaction)} :
    ∀ {l : List α} {res}, forEachCollect f l = .ok res →
      ∀ tx ∈ res, ∃ x ∈ l, f x = .ok (some tx) := by
  intro l
  induction l with
  | nil =>
    intro res h tx htx
    unfold forEachCollect at h
    cases h
    cases htx
  | cons a as ih =>
    intro res h tx htx
    unfold forEachCollect at h
    cases hfa : f a with
    | error e => rw [hfa] at h; cases h
    | ok o =>
      rw [hfa] at h
      cases o with
      | none =>
        obtain ⟨x, hx, hfx⟩ := ih h tx htx
        exact ⟨x, List.mem_cons_of_mem _ hx, hfx⟩
      | some t =>
        cases hrest : forEachCollect f as with
        | error e => rw [hrest] at h; cases h
        | ok res2 =>
          rw [hrest] at h
          cases h
          rcases List.mem_cons.mp htx with rfl | htx2
          · exact ⟨a, List.mem_cons_self a as, hfa⟩
          · obtain ⟨x, hx, hfx⟩ := ih hrest tx htx2
            exact ⟨x, List.mem_cons_of_mem _ hx, hfx⟩

theorem classify_ok {p : PairTable} {r : Rate} {d w : List LedgerRec} {t : List TradeRec}
    {out : List Transaction} (h : classify p r d w t = .ok out) :
    ∃ ws ts, forEachCollect (processWithdrawal r) w = .ok ws ∧
      forEachCollect (processTrade p r) t = .ok ts ∧
      out = d.filterMap processDeposit ++ ws ++ ts := by
  unfold classify at h
  cases hw : forEachCollect (processWithdrawal r) w with
  | error e => rw [hw] at h; cases h
  | ok ws =>
    rw [hw] at h
    cases ht : forEachCollect (processTrade p r) t with
    | error e => rw [ht] at h; cases h
    | ok ts =>
      rw [ht] at h
      cases h
      exact ⟨ws, ts, rfl, rfl, rfl⟩

theorem process_ok {p : PairTable} {r : Rate} {d w : List LedgerRec} {t : List TradeRec}
    {out : List Transaction} (h : process_kraken_data p r d w t = .ok out) :
    ∃ pre, classify p r d w t = .ok pre ∧ out = pre.mergeSort recordKeyLe := by
  unfold process_kraken_data at h
  cases hc : classify p r d w t with
  | error e => rw [hc] at h; cases h
  | ok pre =>
    rw [hc] at h
    cases h
    exact ⟨pre, rfl, rfl⟩

theorem recordKeyLe_trans (a b c : Transaction) (hab : recordKeyLe a b = true)
    (hbc : recordKeyLe b c = true) : recordKeyLe a c = true := by
  simp only [recordKeyLe, decide_eq_true_eq] at *
  exact le_trans hab hbc

theorem recordKeyLe_total (a b : Transaction) : (recordKeyLe a b || recordKeyLe b a) = true := by
  simp only [recordKeyLe, Bool.or_eq_true, decide_eq_true_eq]
  exact le_total _ _

/-! Claim C2: row serialization layout. -/

/-- Row layout of each record variant as the specification states it:
the 4-digit record code first, then the date, then the roman-numeral
category, then the variant-specific fields; operation value and fee are
rendered with 2 decimals, crypto amounts with 10 decimals except the
Sale amount which uses 12; absent optional values are empty fields.
This is the spec side of the refinement claim C2, transcribed from the
spec's row-layout table independently of `Transaction.rowFields`. -/
def specRowLayout : Transaction → List Field
  | .purchase t =>
    [.alphaNumber "0110", .date t.base.operation_date, .alphaNumber "I",
     .decimalNumber t.operation_value 2,
     (match t.base.operation_fees with | none => .empty | some f => .decimalNumber f 2),
     .alphaNumber t.base.crypto_symbol, .decimalNumber t.base.crypto_amount 10,
     .alphaNumber t.buyer_exchange.name, .alphaNumber t.buyer_exchange.url,
     .alphaNumber t.buyer_exchange.country]
  | .sale t =>
    [.alphaNumber "0120", .date t.base.operation_date, .alphaNumber "I",
     .decimalNumber t.operation_value 2,
     (match t.base.operation_fees with | none => .empty | some f => .decimalNumber f 2),
     .alphaNumber t.base.crypto_symbol, .decimalNumber t.base.crypto_amount 12,
     .alphaNumber t.seller_exchange.name, .alphaNumber t.seller_exchange.url,
     .alphaNumber t.seller_exchange.country]
  | .swap t =>
    [.alphaNumber "0210", .date t.operation_date, .alphaNumber "II",
     (match t.operation_fees with | none => .empty | some f => .decimalNumber f 2),
     .alphaNumber t.received_crypto_symbol, .decimalNumber t.received_crypto_amount 10,
     .alphaNumber t.given_crypto_symbol, .decimalNumber t.given_crypto_amount 10,
     .alphaNumber t.exchange.name, .alphaNumber t.exchange.url,
     .alphaNumber t.exchange.country]
  | .transferToExchange t =>
    [.alphaNumber "0410", .date t.base.operation_date, .alphaNumber "IV",
     (match t.base.operation_fees with | none => .empty | some f => .decimalNumber f 2),
     .alphaNumber t.base.crypto_symbol, .decimalNumber t.base.crypto_amount 10,
     (match t.origin_wallet with | none => .empty | some w => .alphaNumber w),
     (match t.origin_exchange_name with | none => .empty | some n => .alphaNumber n)]
  | .withdrawalFromExchange t =>
    [.alphaNumber "0510", .date t.base.operation_date, .alphaNumber "V",
     (match t.base.operation_fees with | none => .empty | some f => .decimalNumber f 2),
     .alphaNumber t.base.crypto_symbol, .decimalNumber t.base.crypto_amount 10,
     .alphaNumber t.origin_exchange.name, .alphaNumber t.origin_exchange.url,
     .alphaNumber t.origin_exchange.country]
  | .cryptoPaymentReceiver t =>
    [.alphaNumber "0710", .date t.base.operation_date, .alphaNumber "VII",
     (match t.base.operation_fees with | none => .empty | some f => .decimalNumber f 2),
     .alphaNumber t.base.crypto_symbol, .decimalNumber t.base.crypto_amount 10,
     .alphaNumber t.receiver_exchange.name, .alphaNumber t.receiver_exchange.url,
     .alphaNumber t.receiver_exchange.country]
  | .cryptoPaymentSender t =>
    [.alphaNumber "0720", .date t.base.operation_date, .alphaNumber "VII",
     (match t.base.operation_fees with | none => .empty | some f => .decimalNumber f 2),
     .alphaNumber t.base.crypto_symbol, .decimalNumber t.base.crypto_amount 10,
     .alphaNumber t.sender_exchange.name, .alphaNumber t.sender_exchange.url,
     .alphaNumber t.sender_exchange.country]

/-- C2: for every Transaction, `write_transaction` writes exactly one
row whose fields appear in the specified layout order (record code,
date, roman-numeral category, then the variant-specific fields), joined
by single pipe delimiters and terminated by CRLF with no trailing
delimiter before the terminator; absent optional values render as empty
fields; the crypto amount uses 12 fractional digits for Sale and 10
otherwise, and operation value and fee use 2. -/
theorem C2_row_layout (tx : Transaction) :
    Transaction.write_transaction tx =
      String.intercalate "|" ((specRowLayout tx).map Field.fmt) ++ "\r\n" ∧
    Field.fmt .empty = "" := by
  cases tx <;> exact ⟨rfl, rfl⟩

/-! Claim C9: trade timestamp integer part. -/

/-- C9: the fractional part of a trade timestamp is truncated
(`int_part` of 1.5, as mantissa 15 at scale 1, is 1), but an integer
component that does not fit in `i64` is NOT a fatal error: the
`d.mantissa() as i64` cast silently wraps, so a timestamp of 2^64
seconds yields 0 (epoch 1970-01-01) instead of aborting — the scale
assertion inside `int_part` cannot fire (`int_part_eq`). -/
theorem C9_int_part_wrap :
    int_part ⟨15, 1⟩ = .ok 1 ∧
    int_part ⟨(2 : Int) ^ 64, 0⟩ = .ok 0 ∧
    timestampToDate 0 = ⟨1970, 1, 1⟩ := by
  refine ⟨rfl, by decide, by decide⟩

/-! Claims C1 and C3: trade classification. -/

theorem process_singleton_trade {p : PairTable} {r : Rate} {t : TradeRec} {tx : Transaction}
    (h : processTrade p r t = .ok (some tx)) :
    process_kraken_data p r [] [] [t] = .ok [tx] := by
  simp [process_kraken_data, classify, forEachCollect, h, Except.map, List.mergeSort_singleton]

/-- C1: for a trade whose quote asset is fiat and base asset is crypto,
with volume `V`, cost `C`, fee `F` and price `P`, the classifier emits
exactly one record — a Purchase for side "buy", a Sale for side "sell",
and a fatal error for any other side — whose crypto amount is
`V - F / P`, whose operation value is `(C - F) * rate(date, quote)` and
whose fee is `F * rate(date, quote)`. -/
theorem C1_crypto_fiat_trade (parse_pair : PairTable) (rate : Rate) (t : TradeRec)
    (base quote : String) (rate_date : Date) (r : ℚ) (secs : Int)
    (hpair : parse_pair t.pair = some (base, quote))
    (hbase : is_fiat base = false) (hquote : is_fiat quote = true)
    (hsecs : int_part t.time = .ok secs)
    (hprice : t.price ≠ 0)
    (hrate : rate (timestampToDate secs) quote = .ok (rate_date, r)) :
    (t.type_ = "buy" →
      processTrade parse_pair rate t = .ok (some (.purchase
        { base := { operation_date := timestampToDate secs
                    operation_fees := some (t.fee * r)
                    crypto_symbol := base
                    crypto_amount := t.vol - t.fee / t.price }
          operation_value := (t.cost - t.fee) * r
          buyer_exchange := kraken_exchange_info })) ∧
      process_kraken_data parse_pair rate [] [] [t] = .ok [.purchase
        { base := { operation_date := timestampToDate secs
                    operation_fees := some (t.fee * r)
                    crypto_symbol := base
                    crypto_amount := t.vol - t.fee / t.price }
          operation_value := (t.cost - t.fee) * r
          buyer_exchange := kraken_exchange_info }]) ∧
    (t.type_ = "sell" →
      processTrade parse_pair rate t = .ok (some (.sale
        { base := { operation_date := timestampToDate secs
                    operation_fees := some (t.fee * r)
                    crypto_symbol := base
                    crypto_amount := t.vol - t.fee / t.price }
          operation_value := (t.cost - t.fee) * r
          seller_exchange := kraken_exchange_info })) ∧
      process_kraken_data parse_pair rate [] [] [t] = .ok [.sale
        { base := { operation_date := timestampToDate secs
                    operation_fees := some (t.fee * r)
                    crypto_symbol := base
                    crypto_amount := t.vol - t.fee / t.price }
          operation_value := (t.cost - t.fee) * r
          seller_exchange := kraken_exchange_info }]) ∧
    (t.type_ ≠ "buy" → t.type_ ≠ "sell" →
      processTrade parse_pair rate t = .error ("Unknown trade type: " ++ t.type_)) := by
  refine ⟨?_, ?_, ?_⟩
  · intro hty
    have h1 : processTrade parse_pair rate t = .ok (some (.purchase
        { base := { operation_date := timestampToDate secs
                    operation_fees := some (t.fee * r)
                    crypto_symbol := base
                    crypto_amount := t.vol - t.fee / t.price }
          operation_value := (t.cost - t.fee) * r
          buyer_exchange := kraken_exchange_info })) := by
      simp [processTrade, hpair, hsecs, hbase, hquote, hprice, hrate, hty]
    exact ⟨h1, process_singleton_trade h1⟩
  · intro hty
    have h1 : processTrade parse_pair rate t = .ok (some (.sale
        { base := { operation_date := timestampToDate secs
                    operation_fees := some (t.fee * r)
                    crypto_symbol := base
                    crypto_amount := t.vol - t.fee / t.price }
          operation_value := (t.cost - t.fee) * r
          seller_exchange := kraken_exchange_info })) := by
      simp [processTrade, hpair, hsecs, hbase, hquote, hprice, hrate, hty]
    exact ⟨h1, process_singleton_trade h1⟩
  · intro hbuy hsell
    simp [processTrade, hpair, hsecs, hbase, hquote, hprice, hrate, hbuy, hsell]

/-- Pair table fixture used by the concrete witnesses. -/
def testPairs : PairTable := fun p =>
  if p = "XBTUSD" then some ("XBT", "USD")
  else if p = "ETHXBT" then some ("ETH", "XBT")
  else if p = "USDXBT" then some ("USD", "XBT")
  else if p = "USDEUR" then some ("USD", "EUR")
  else none

/-- Exchange-rate fixture used by the concrete witnesses: BRL rate 5 for
USD, 10 for ETH, failure otherwise. -/
def testRate : Rate := fun _ a =>
  if a = "USD" then .ok (⟨2023, 12, 31⟩, 5)
  else if a = "ETH" then .ok (⟨2023, 12, 31⟩, 10)
  else .error "no data"

/-- Concrete crypto/fiat buy trade: 2 XBT for 100 USD at price 50, fee
1 USD, at 1703980800.5 unix seconds (2023-12-31). -/
def tradeBuy : TradeRec := ⟨"XBTUSD", 2, 100, 1, 50, ⟨17039808005, 1⟩, "buy"⟩

set_option maxRecDepth 100000 in
theorem C1_witness :
    is_fiat "USD" = true ∧ (2 : ℚ) - 1 / 50 = 99 / 50 ∧ ((100 : ℚ) - 1) * 5 = 495 ∧
    processTrade testPairs testRate tradeBuy = .ok (some (.purchase
      { base := { operation_date := timestampToDate 1703980800
                  operation_fees := some (tradeBuy.fee * 5)
                  crypto_symbol := "XBT"
                  crypto_amount := tradeBuy.vol - tradeBuy.fee / tradeBuy.price }
        operation_value := (tradeBuy.cost - tradeBuy.fee) * 5
        buyer_exchange := kraken_exchange_info })) :=
  ⟨by with_unfolding_all decide, by with_unfolding_all decide, by with_unfolding_all decide,
   ((C1_crypto_fiat_trade testPairs testRate tradeBuy "XBT" "USD" ⟨2023, 12, 31⟩ 5 1703980800
      (by decide) (by with_unfolding_all decide) (by with_unfolding_all decide)
      (by decide) (by with_unfolding_all decide) rfl).1 rfl).1⟩

/-- C3: for a trade whose base and quote assets are both crypto, the
classifier emits exactly one Swap record: for side "buy" the received
leg is (base, volume) and the given leg is (quote, cost); for side
"sell" the received leg is (quote, cost) and the given leg is
(base, volume); the fee is the trade fee multiplied by the
reporting-currency rate of the BASE asset, `rate(date, base)`. -/
theorem C3_crypto_crypto_swap (parse_pair : PairTable) (rate : Rate) (t : TradeRec)
    (base quote : String) (rate_date : Date) (r : ℚ) (secs : Int)
    (hpair : parse_pair t.pair = some (base, quote))
    (hbase : is_fiat base = false) (hquote : is_fiat quote = false)
    (hsecs : int_part t.time = .ok secs)
    (hrate : rate (timestampToDate secs) base = .ok (rate_date, r)) :
    (t.type_ = "buy" →
      processTrade parse_pair rate t = .ok (some (.swap
        { operation_date := timestampToDate secs
          operation_fees := some (t.fee * r)
          received_crypto_symbol := base
          received_crypto_amount := t.vol
          given_crypto_symbol := quote
          given_crypto_amount := t.cost
          exchange := kraken_exchange_info })) ∧
      process_kraken_data parse_pair rate [] [] [t] = .ok [.swap
        { operation_date := timestampToDate secs
          operation_fees := some (t.fee * r)
          received_crypto_symbol := base
          received_crypto_amount := t.vol
          given_crypto_symbol := quote
          given_crypto_amount := t.cost
          exchange := kraken_exchange_info }]) ∧
    (t.type_ = "sell" →
      processTrade parse_pair rate t = .ok (some (.swap
        { operation_date := timestampToDate secs
          operation_fees := some (t.fee * r)
          received_crypto_symbol := quote
          received_crypto_amount := t.cost
          given_crypto_symbol := base
          given_crypto_amount := t.vol
          exchange := kraken_exchange_info })) ∧
      process_kraken_data parse_pair rate [] [] [t] = .ok [.swap
        { operation_date := timestampToDate secs
          operation_fees := some (t.fee * r)
          received_crypto_symbol := quote
          received_crypto_amount := t.cost
          given_crypto_symbol := base
          given_crypto_amount := t.vol
          exchange := kraken_exchange_info }]) := by
  constructor
  · intro hty
    have h1 : processTrade parse_pair rate t = .ok (some (.swap
        { operation_date := timestampToDate secs
          operation_fees := some (t.fee * r)
          received_crypto_symbol := base
          received_crypto_amount := t.vol
          given_crypto_symbol := quote
          given_crypto_amount := t.cost
          exchange := kraken_exchange_info })) := by
      simp [processTrade, hpair, hsecs, hbase, hquote, hrate, hty]
    exact ⟨h1, process_singleton_trade h1⟩
  · intro hty
    have h1 : processTrade parse_pair rate t = .ok (some (.swap
        { operation_date := timestampToDate secs
          operation_fees := some (t.fee * r)
          received_crypto_symbol := quote
          received_crypto_amount := t.cost
          given_crypto_symbol := base
          given_crypto_amount := t.vol
          exchange := kraken_exchange_info })) := by
      simp [processTrade, hpair, hsecs, hbase, hquote, hrate, hty]
    exact ⟨h1, process_singleton_trade h1⟩

/-- Concrete crypto/crypto sell trade: 3 ETH sold for 0.3 XBT, fee
0.01 XBT, at 1703980800 unix seconds. -/
def tradeSwapSell : TradeRec := ⟨"ETHXBT", 3, 3 / 10, 1 / 100, 1 / 10, ⟨1703980800, 0⟩, "sell"⟩

set_option maxRecDepth 100000 in
theorem C3_witness :
    is_fiat "ETH" = false ∧ is_fiat "XBT" = false ∧
    processTrade testPairs testRate tradeSwapSell = .ok (some (.swap
      { operation_date := timestampToDate 1703980800
        operation_fees := some (tradeSwapSell.fee * 10)
        received_crypto_symbol := "XBT"
        received_crypto_amount := tradeSwapSell.cost
        given_crypto_symbol := "ETH"
        given_crypto_amount := tradeSwapSell.vol
        exchange := kraken_exchange_info })) :=
  ⟨by with_unfolding_all decide, by with_unfolding_all decide,
   ((C3_crypto_crypto_swap testPairs testRate tradeSwapSell "ETH" "XBT" ⟨2023, 12, 31⟩ 10
      1703980800 (by decide) (by with_unfolding_all decide)
      (by with_unfolding_all decide) (by decide) rfl).2 rfl).1⟩

/-! Claim C6: fiat-ness filtering. -/

/-- C6: a deposit produces a TransferToExchange record iff its asset is
not fiat; a withdrawal produces a WithdrawalFromExchange record iff its
asset is not fiat (fiat withdrawals produce nothing, and a successful
non-fiat withdrawal always yields a WithdrawalFromExchange); a trade
with both legs fiat produces no Transaction at all; a trade whose base
is fiat and quote is crypto is a fatal error rather than being skipped
or reclassified. -/
theorem C6_fiat_filtering (rate : Rate) (parse_pair : PairTable)
    (d w : LedgerRec) (t : TradeRec) (base quote : String)
    (hpair : parse_pair t.pair = some (base, quote)) :
    ((processDeposit d).isSome = true ↔ is_fiat d.asset = false) ∧
    (∀ tx, processDeposit d = some tx → ∃ p, tx = .transferToExchange p) ∧
    (is_fiat w.asset = true → processWithdrawal rate w = .ok none) ∧
    (is_fiat w.asset = false → ∀ o, processWithdrawal rate w = .ok o →
      ∃ p, o = some (.withdrawalFromExchange p)) ∧
    (is_fiat base = true → is_fiat quote = true →
      processTrade parse_pair rate t = .ok none) ∧
    (is_fiat base = true → is_fiat quote = false →
      processTrade parse_pair rate t = .error ("Unexpected Fiat-Crypto trade pair: " ++ t.pair)) := by
  refine ⟨?_, ?_, ?_, ?_, ?_, ?_⟩
  · unfold processDeposit
    cases hf : is_fiat d.asset <;> simp [hf]
  · intro tx htx
    unfold processDeposit at htx
    cases hf : is_fiat d.asset <;> rw [hf] at htx <;> simp at htx
    exact ⟨_, htx.symm⟩
  · intro hf
    simp [processWithdrawal, hf]
  · intro hf o ho
    unfold processWithdrawal at ho
    rw [hf] at ho
    simp only [Bool.false_eq_true, if_false] at ho
    cases hr : rate (timestampToDate (wrapI64 w.time)) w.asset with
    | error e => rw [hr] at ho; cases ho
    | ok pr =>
      rw [hr] at ho
      cases ho
      exact ⟨_, rfl⟩
  · intro hb hq
    simp [processTrade, hpair, int_part_eq, hb, hq]
  · intro hb hq
    simp [processTrade, hpair, int_part_eq, hb, hq]

/-- Concrete fiat-fiat trade on the USD/EUR pair. -/
def tradeFiatFiat : TradeRec := ⟨"USDEUR", 1, 1, 0, 1, ⟨0, 0⟩, "buy"⟩

/-- Concrete (malformed) fiat-base/crypto-quote trade on USD/XBT. -/
def tradeFiatCrypto : TradeRec := ⟨"USDXBT", 1, 1, 0, 1, ⟨0, 0⟩, "buy"⟩

set_option maxRecDepth 10000 in
theorem C6_witness :
    (processDeposit ⟨"XBT", 1, 0, 0⟩).isSome = true ∧
    processWithdrawal testRate ⟨"USD", 2, 1, 0⟩ = .ok none ∧
    processTrade testPairs testRate tradeFiatFiat = .ok none ∧
    processTrade testPairs testRate tradeFiatCrypto =
      .error ("Unexpected Fiat-Crypto trade pair: " ++ tradeFiatCrypto.pair) :=
  ⟨(C6_fiat_filtering testRate testPairs ⟨"XBT", 1, 0, 0⟩ ⟨"USD", 2, 1, 0⟩ tradeFiatFiat
      "USD" "EUR" (by decide)).1.mpr (by with_unfolding_all decide),
   (C6_fiat_filtering testRate testPairs ⟨"XBT", 1, 0, 0⟩ ⟨"USD", 2, 1, 0⟩ tradeFiatFiat
      "USD" "EUR" (by decide)).2.2.1 (by with_unfolding_all decide),
   (C6_fiat_filtering testRate testPairs ⟨"XBT", 1, 0, 0⟩ ⟨"USD", 2, 1, 0⟩ tradeFiatFiat
      "USD" "EUR" (by decide)).2.2.2.2.1 (by with_unfolding_all decide)
      (by with_unfolding_all decide),
   (C6_fiat_filtering testRate testPairs ⟨"XBT", 1, 0, 0⟩ ⟨"USD", 2, 1, 0⟩ tradeFiatCrypto
      "USD" "XBT" (by decide)).2.2.2.2.2 (by with_unfolding_all decide)
      (by with_unfolding_all decide)⟩

/-! Claim C10: the classifier only emits five of the seven variants. -/

/-- The five Transaction variants the classifier can emit; false exactly
on the CryptoPaymentReceiver and CryptoPaymentSender variants. -/
def isClassifierVariant : Transaction → Bool
  | .cryptoPaymentReceiver _ => false
  | .cryptoPaymentSender _ => false
  | _ => true

theorem processDeposit_variant {d : LedgerRec} {tx : Transaction}
    (h : processDeposit d = some tx) : ∃ p, tx = .transferToExchange p := by
  unfold processDeposit at h
  cases hf : is_fiat d.asset <;> rw [hf] at h <;> simp at h
  exact ⟨_, h.symm⟩

theorem processWithdrawal_variant {r : Rate} {w : LedgerRec} {tx : Transaction}
    (h : processWithdrawal r w = .ok (some tx)) : ∃ p, tx = .withdrawalFromExchange p := by
  unfold processWithdrawal at h
  cases hf : is_fiat w.asset <;> rw [hf] at h
  · simp only [Bool.false_eq_true, if_false] at h
    cases hr : r (timestampToDate (wrapI64 w.time)) w.asset with
    | error e => rw [hr] at h; cases h
    | ok pr =>
      rw [hr] at h
      cases h
      exact ⟨_, rfl⟩
  · simp at h

theorem processTrade_variant {p : PairTable} {r : Rate} {t : TradeRec} {tx : Transaction}
    (h : processTrade p r t = .ok (some tx)) :
    (∃ q, tx = .purchase q) ∨ (∃ q, tx = .sale q) ∨ (∃ q, tx = .swap q) := by
  simp only [processTrade] at h
  repeat' split at h
  all_goals try cases h
  all_goals first
    | exact Or.inl ⟨_, rfl⟩
    | exact Or.inr (Or.inl ⟨_, rfl⟩)
    | exact Or.inr (Or.inr ⟨_, rfl⟩)

/-- C10: every Transaction produced by the classifier is one of
Purchase, Sale, Swap, TransferToExchange or WithdrawalFromExchange; the
CryptoPaymentReceiver (0710) and CryptoPaymentSender (0720) variants are
never emitted, although the record model and serializer define them
(their record type pairs are ("0710", "VII") and ("0720", "VII")). -/
theorem C10_classifier_variants (p : PairTable) (r : Rate)
    (d w : List LedgerRec) (t : List TradeRec) (out : List Transaction)
    (h : process_kraken_data p r d w t = .ok out) :
    (∀ tx ∈ out, isClassifierVariant tx = true) ∧
    (∀ pr, Transaction.record_type (.cryptoPaymentReceiver pr) = ("0710", "VII")) ∧
    (∀ ps, Transaction.record_type (.cryptoPaymentSender ps) = ("0720", "VII")) := by
  refine ⟨?_, fun _ => rfl, fun _ => rfl⟩
  intro tx htx
  obtain ⟨pre, hpre, rfl⟩ := process_ok h
  have htx2 : tx ∈ pre := ((List.mergeSort_perm pre recordKeyLe).mem_iff).mp htx
  obtain ⟨ws, ts, hws, hts, rfl⟩ := classify_ok hpre
  rcases List.mem_append.mp htx2 with hmem | hts2
  · rcases List.mem_append.mp hmem with hdep | hwd
    · obtain ⟨x, _, hx⟩ := List.mem_filterMap.mp hdep
      obtain ⟨q, rfl⟩ := processDeposit_variant hx
      rfl
    · obtain ⟨x, _, hx⟩ := mem_forEachCollect hws tx hwd
      obtain ⟨q, rfl⟩ := processWithdrawal_variant hx
      rfl
  · obtain ⟨x, _, hx⟩ := mem_forEachCollect hts tx hts2
    rcases processTrade_variant hx with ⟨q, rfl⟩ | ⟨q, rfl⟩ | ⟨q, rfl⟩ <;> rfl

set_option maxRecDepth 10000 in
theorem C10_witness :
    isClassifierVariant (.transferToExchange ⟨⟨⟨1970, 1, 1⟩, some 0, "XBT", 1⟩, none, none⟩) = true := by
  have h : process_kraken_data testPairs testRate [⟨"XBT", 1, 0, 0⟩] [] [] =
      .ok [.transferToExchange ⟨⟨⟨1970, 1, 1⟩, some 0, "XBT", 1⟩, none, none⟩] := by
    simp only [process_kraken_data]
    rw [show classify testPairs testRate [⟨"XBT", 1, 0, 0⟩] [] [] =
        .ok [.transferToExchange ⟨⟨⟨1970, 1, 1⟩, some 0, "XBT", 1⟩, none, none⟩] from by
      with_unfolding_all decide]
    simp [Except.map, List.mergeSort_singleton]
  exact (C10_classifier_variants testPairs testRate [⟨"XBT", 1, 0, 0⟩] [] [] _ h).1 _
    (List.mem_singleton.mpr rfl)

/-! Claim C5: rate-lookup failures abort the whole run. -/

theorem processWithdrawal_rate_ok {r : Rate} {w : LedgerRec} {o : Option Transaction}
    (hf : is_fiat w.asset = false) (h : processWithdrawal r w = .ok o) :
    ∃ rd rr, r (timestampToDate (wrapI64 w.time)) w.asset = .ok (rd, rr) := by
  unfold processWithdrawal at h
  rw [hf] at h
  simp only [Bool.false_eq_true, if_false] at h
  cases hr : r (timestampToDate (wrapI64 w.time)) w.asset with
  | error e => rw [hr] at h; cases h
  | ok pr => exact ⟨pr.1, pr.2, rfl⟩

theorem processTrade_cryptoFiat_rate_ok {p : PairTable} {r : Rate} {t : TradeRec}
    {b q : String} {secs : Int} {o : Option Transaction}
    (hpair : p t.pair = some (b, q)) (hsecs : int_part t.time = .ok secs)
    (hb : is_fiat b = false) (hq : is_fiat q = true)
    (h : processTrade p r t = .ok o) :
    ∃ rd rr, r (timestampToDate secs) q = .ok (rd, rr) := by
  simp only [processTrade, hpair, hsecs, hb, hq] at h
  by_cases hp : t.price = 0
  · rw [if_pos hp] at h; cases h
  · rw [if_neg hp] at h
    cases hr : r (timestampToDate secs) q with
    | error e => rw [hr] at h; cases h
    | ok pr => exact ⟨pr.1, pr.2, rfl⟩

theorem processTrade_cryptoCrypto_rate_ok {p : PairTable} {r : Rate} {t : TradeRec}
    {b q : String} {secs : Int} {o : Option Transaction}
    (hpair : p t.pair = some (b, q)) (hsecs : int_part t.time = .ok secs)
    (hb : is_fiat b = false) (hq : is_fiat q = false)
    (h : processTrade p r t = .ok o) :
    ∃ rd rr, r (timestampToDate secs) b = .ok (rd, rr) := by
  simp only [processTrade, hpair, hsecs, hb, hq] at h
  cases hr : r (timestampToDate secs) b with
  | error e => rw [hr] at h; cases h
  | ok pr => exact ⟨pr.1, pr.2, rfl⟩

/-- C5: a failed exchange-rate lookup — for a withdrawal fee conversion,
a crypto/fiat trade conversion, or a crypto/crypto swap fee conversion —
aborts processing of the entire input (a successful run implies every
required lookup succeeded, and an actual failure makes the whole run
return an error, so no partial report exists and no default is
substituted), and the error is the descriptive message naming the asset
and the date. -/
theorem C5_rate_failure_aborts (parse_pair : PairTable) (rate : Rate)
    (deposits withdrawals : List LedgerRec) (trades : List TradeRec) :
    (∀ out, process_kraken_data parse_pair rate deposits withdrawals trades = .ok out →
      (∀ w ∈ withdrawals, is_fiat w.asset = false →
        ∃ rd rr, rate (timestampToDate (wrapI64 w.time)) w.asset = .ok (rd, rr)) ∧
      (∀ t ∈ trades, ∀ b q secs, parse_pair t.pair = some (b, q) →
        int_part t.time = .ok secs →
        (is_fiat b = false → is_fiat q = true →
          ∃ rd rr, rate (timestampToDate secs) q = .ok (rd, rr)) ∧
        (is_fiat b = false → is_fiat q = false →
          ∃ rd rr, rate (timestampToDate secs) b = .ok (rd, rr)))) ∧
    (∀ w : LedgerRec, ∀ e, is_fiat w.asset = false →
      rate (timestampToDate (wrapI64 w.time)) w.asset = .error e →
      processWithdrawal rate w =
        .error (rateErrMsg w.asset (timestampToDate (wrapI64 w.time)) e)) ∧
    (∀ t : TradeRec, ∀ b q secs e, parse_pair t.pair = some (b, q) →
      int_part t.time = .ok secs → is_fiat b = false → is_fiat q = true →
      t.price ≠ 0 → rate (timestampToDate secs) q = .error e →
      processTrade parse_pair rate t = .error (rateErrMsg q (timestampToDate secs) e)) ∧
    (∀ t : TradeRec, ∀ b q secs e, parse_pair t.pair = some (b, q) →
      int_part t.time = .ok secs → is_fiat b = false → is_fiat q = false →
      rate (timestampToDate secs) b = .error e →
      processTrade parse_pair rate t = .error (rateErrMsg b (timestampToDate secs) e)) ∧
    ((∃ w ∈ withdrawals, is_fiat w.asset = false ∧
        ∃ e, rate (timestampToDate (wrapI64 w.time)) w.asset = .error e) →
      ∃ msg, process_kraken_data parse_pair rate deposits withdrawals trades = .error msg) := by
  have main : ∀ out, process_kraken_data parse_pair rate deposits withdrawals trades = .ok out →
      (∀ w ∈ withdrawals, is_fiat w.asset = false →
        ∃ rd rr, rate (timestampToDate (wrapI64 w.time)) w.asset = .ok (rd, rr)) ∧
      (∀ t ∈ trades, ∀ b q secs, parse_pair t.pair = some (b, q) →
        int_part t.time = .ok secs →
        (is_fiat b = false → is_fiat q = true →
          ∃ rd rr, rate (timestampToDate secs) q = .ok (rd, rr)) ∧
        (is_fiat b = false → is_fiat q = false →
          ∃ rd rr, rate (timestampToDate secs) b = .ok (rd, rr))) := by
    intro out h
    obtain ⟨pre, hpre, rfl⟩ := process_ok h
    obtain ⟨ws, ts, hws, hts, rfl⟩ := classify_ok hpre
    constructor
    · intro w hw hf
      obtain ⟨o, ho⟩ := forEachCollect_ok_of_mem hws w hw
      exact processWithdrawal_rate_ok hf ho
    · intro t ht b q secs hpair hsecs
      obtain ⟨o, ho⟩ := forEachCollect_ok_of_mem hts t ht
      exact ⟨fun hb hq => processTrade_cryptoFiat_rate_ok hpair hsecs hb hq ho,
             fun hb hq => processTrade_cryptoCrypto_rate_ok hpair hsecs hb hq ho⟩
  refine ⟨main, ?_, ?_, ?_, ?_⟩
  · intro w e hf hr
    simp [processWithdrawal, hf, hr]
  · intro t b q secs e hpair hsecs hb hq hp hr
    simp [processTrade, hpair, hsecs, hb, hq, hp, hr]
  · intro t b q secs e hpair hsecs hb hq hr
    simp [processTrade, hpair, hsecs, hb, hq, hr]
  · rintro ⟨w, hw, hf, e, he⟩
    cases hres : process_kraken_data parse_pair rate deposits withdrawals trades with
    | error m => exact ⟨m, rfl⟩
    | ok out =>
      obtain ⟨rd, rr, hok⟩ := (main out hres).1 w hw hf
      rw [he] at hok
      cases hok

/-- Concrete non-fiat withdrawal whose rate lookup fails under
`testRate`. -/
def withdrawXBT : LedgerRec := ⟨"XBT", 1, 1 / 10, 0⟩

set_option maxRecDepth 10000 in
theorem C5_witness :
    is_fiat "XBT" = false ∧
    processWithdrawal testRate withdrawXBT =
      .error (rateErrMsg "XBT" (timestampToDate (wrapI64 (0 : Nat))) "no data") ∧
    rateErrMsg "XBT" ⟨1970, 1, 1⟩ "no data" =
      "Failed to get exchange rate for XBT on 1970-01-01: no data" ∧
    (∃ msg, process_kraken_data testPairs testRate [] [withdrawXBT] [] = .error msg) :=
  ⟨by with_unfolding_all decide,
   (C5_rate_failure_aborts testPairs testRate [] [withdrawXBT] []).2.1 withdrawXBT "no data"
     (by with_unfolding_all decide) rfl,
   by decide,
   (C5_rate_failure_aborts testPairs testRate [] [withdrawXBT] []).2.2.2.2
     ⟨withdrawXBT, List.mem_singleton.mpr rfl, by with_unfolding_all decide, "no data", rfl⟩⟩

/-! Claim C4: report ordering. -/

/-- C4 (amended): before writing, the report assembler sorts the
classified collection by record-type code ascending — every successful
run's output is a permutation of the classifier's emission satisfying
the `sort_unstable_by_key` contract, and the record-code column is
non-decreasing from top to bottom. (The stability part of the original
claim is refuted by `C4_stability_cex`: the sort is explicitly
unstable.) -/
theorem C4_sorted_output (parse_pair : PairTable) (rate : Rate)
    (deposits withdrawals : List LedgerRec) (trades : List TradeRec)
    (out : List Transaction)
    (h : process_kraken_data parse_pair rate deposits withdrawals trades = .ok out) :
    (∃ pre, classify parse_pair rate deposits withdrawals trades = .ok pre ∧
      sortUnstableByKeyContract pre out) ∧
    (out.map (fun tx => tx.record_type.1)).Chain' (· ≤ ·) := by
  obtain ⟨pre, hpre, rfl⟩ := process_ok h
  have hperm := List.mergeSort_perm pre recordKeyLe
  have hsorted := List.sorted_mergeSort recordKeyLe_trans recordKeyLe_total pre
  refine ⟨⟨pre, hpre, hperm, hsorted⟩, ?_⟩
  rw [List.chain'_iff_pairwise, List.pairwise_map]
  exact hsorted.imp (fun hab => by simpa [recordKeyLe] using hab)

/-- Two distinct transactions with the same record-type code 0410. -/
def txEqCodeA : Transaction := .transferToExchange ⟨⟨⟨1970, 1, 1⟩, some 0, "AAA", 1⟩, none, none⟩

/-- Second transaction with record-type code 0410, differing from
`txEqCodeA` in its asset symbol. -/
def txEqCodeB : Transaction := .transferToExchange ⟨⟨⟨1970, 1, 1⟩, some 0, "BBB", 1⟩, none, none⟩

set_option maxRecDepth 10000 in
/-- C4 counterexample: the claim asserts the sort is stable for equal
record codes, but the code uses `sort_unstable_by_key`, whose contract
guarantees only a sorted permutation and explicitly does not preserve
the order of equal elements: for the concrete input `[txEqCodeA,
txEqCodeB]` (both code 0410) the reversed output also satisfies the
contract, so stability does not follow. -/
theorem C4_stability_cex :
    ¬ (∀ output : List Transaction,
        sortUnstableByKeyContract [txEqCodeA, txEqCodeB] output → output = [txEqCodeA, txEqCodeB]) := by
  intro hstable
  have hcontract : sortUnstableByKeyContract [txEqCodeA, txEqCodeB] [txEqCodeB, txEqCodeA] := by
    refine ⟨List.Perm.swap txEqCodeA txEqCodeB [], ?_⟩
    have hle : recordKeyLe txEqCodeB txEqCodeA = true := by with_unfolding_all decide
    simp [List.pairwise_cons, hle]
  have heq := hstable [txEqCodeB, txEqCodeA] hcontract
  have hne : txEqCodeA ≠ txEqCodeB := by with_unfolding_all decide
  simp only [List.cons.injEq] at heq
  exact hne heq.1.symm

/-- Classified transfer record used in the C4 witness. -/
def txTransferXBT : Transaction := .transferToExchange ⟨⟨⟨1970, 1, 1⟩, some 0, "XBT", 1⟩, none, none⟩

/-- Classified swap record used in the C4 witness. -/
def txSwapSell : Transaction :=
  .swap ⟨⟨2023, 12, 31⟩, some (tradeSwapSell.fee * 10), "XBT", tradeSwapSell.cost, "ETH",
    tradeSwapSell.vol, kraken_exchange_info⟩

set_option maxRecDepth 40000 in
theorem C4_witness :
    (([txSwapSell, txTransferXBT].map (fun tx => tx.record_type.1)).Chain' (· ≤ ·)) ∧
    Transaction.record_type txSwapSell = ("0210", "II") ∧
    Transaction.record_type txTransferXBT = ("0410", "IV") := by
  have h : process_kraken_data testPairs testRate [⟨"XBT", 1, 0, 0⟩] [] [tradeSwapSell] =
      .ok [txSwapSell, txTransferXBT] := by
    simp only [process_kraken_data]
    rw [show classify testPairs testRate [⟨"XBT", 1, 0, 0⟩] [] [tradeSwapSell] =
        .ok [txTransferXBT, txSwapSell] from by with_unfolding_all decide]
    simp only [Except.map]
    rw [show [txTransferXBT, txSwapSell].mergeSort recordKeyLe = [txSwapSell, txTransferXBT] from by
      simp [List.mergeSort, List.merge,
        show recordKeyLe txTransferXBT txSwapSell = false from by with_unfolding_all decide,
        show recordKeyLe txSwapSell txTransferXBT = true from by with_unfolding_all decide]]
  exact ⟨(C4_sorted_output testPairs testRate [⟨"XBT", 1, 0, 0⟩] [] [tradeSwapSell] _ h).2,
    rfl, rfl⟩

/-! Claim C8: delimiter rejection. -/

/-- The transfer record produced by the classifier for a deposit whose
asset ticker contains the delimiter character. -/
def txBadSymbol : Transaction :=
  .transferToExchange ⟨⟨⟨1970, 1, 1⟩, some 0, "A|B", 1⟩, none, none⟩

set_option maxRecDepth 40000 in
/-- C8 counterexample: a text value containing the delimiter is NOT
rejected on the record-writing path. The classifier accepts a deposit
with asset ticker "A|B" and `write_transaction` writes the value
verbatim: the produced row splits into 9 pipe-separated parts although
the TransferToExchange layout has only 8 fields, so a row containing a
delimiter inside a field value is produced. The checked `From<&str>`
conversion is bypassed: `write_transaction` and `ExchangeInfo::fields`
construct `AlphaNumber` fields directly. -/
theorem C8_delimiter_written_verbatim :
    process_kraken_data testPairs testRate [⟨"A|B", 1, 0, 0⟩] [] [] = .ok [txBadSymbol] ∧
    Transaction.write_transaction txBadSymbol = "0410|01011970|IV|0,00|A|B|1,0000000000||\r\n" ∧
    "A|B".contains '|' = true ∧
    (Transaction.rowFields txBadSymbol).length = 8 ∧
    (("0410|01011970|IV|0,00|A|B|1,0000000000||".splitOn "|").length = 9) := by
  refine ⟨?_, by with_unfolding_all decide, by with_unfolding_all decide, by decide,
    by with_unfolding_all decide⟩
  simp only [process_kraken_data]
  rw [show classify testPairs testRate [⟨"A|B", 1, 0, 0⟩] [] [] = .ok [txBadSymbol] from by
    with_unfolding_all decide]
  simp [Except.map, List.mergeSort_singleton]

/-- C8 (amended): only the checked `From<&str>` conversion rejects
delimiter-containing text — it fails exactly when the value contains
the pipe character, with the panic message of the source — while the
record-writing path constructs text fields directly and writes such
values verbatim (see `C8_delimiter_written_verbatim`). -/
theorem C8_fromStr_rejects (s : String) :
    (Field.fromStr s = .ok (.alphaNumber s) ↔ s.contains '|' = false) ∧
    (s.contains '|' = true →
      Field.fromStr s = .error "Field value cannot contain the delimiter character") := by
  constructor
  · constructor
    · intro h
      by_contra hc
      simp only [Bool.not_eq_false] at hc
      simp [Field.fromStr, hc] at h
    · intro h
      simp [Field.fromStr, h]
  · intro h
    simp [Field.fromStr, h]

theorem C8_witness :
    ("A|B".contains '|' = true ∧
      Field.fromStr "A|B" = .error "Field value cannot contain the delimiter character") ∧
    Field.fromStr "XBT" = .ok (.alphaNumber "XBT") :=
  ⟨⟨by with_unfolding_all decide, (C8_fromStr_rejects "A|B").2 (by with_unfolding_all decide)⟩,
   (C8_fromStr_rejects "XBT").1.mpr (by with_unfolding_all decide)⟩

/-! Claim C7: field encoding. Supporting lemmas about digit rendering. -/

theorem natDigitsBound_length :
    ∀ (m n k : Nat), n < 10 ^ k → 0 < k → n < m → (natDigitsBound m n).length ≤ k := by
  intro m
  induction m with
  | zero => intro n k _ _ hm; exact absurd hm (Nat.not_lt_zero n)
  | succ m ih =>
    intro n k hnk hk hm
    unfold natDigitsBound
    by_cases h10 : n < 10
    · rw [if_pos h10]
      simpa using hk
    · rw [if_neg h10]
      rw [List.length_append]
      have hk2 : 2 ≤ k := by
        by_contra hc
        have hk1 : k = 1 := by omega
        subst hk1
        norm_num at hnk
        omega
      have hdiv : n / 10 < 10 ^ (k - 1) := by
        rw [Nat.div_lt_iff_lt_mul (by norm_num)]
        calc n < 10 ^ k := hnk
          _ = 10 ^ (k - 1) * 10 := by
              rw [← pow_succ]
              congr 1
              omega
      have hnm : n / 10 < m := by
        have h1 : n / 10 < n := Nat.div_lt_self (by omega) (by omega)
        omega
      have := ih (n / 10) (k - 1) hdiv (by omega) hnm
      simp only [List.length_singleton]
      omega

theorem natDigits_length_le {n k : Nat} (h : n < 10 ^ k) (hk : 0 < k) :
    (natDigits n).length ≤ k :=
  natDigitsBound_length (n + 1) n k h hk (Nat.lt_succ_self n)

theorem fracDigits_length : ∀ (p n : Nat), (fracDigits p n).length = p := by
  intro p
  induction p with
  | zero => intro n; rfl
  | succ p ih =>
    intro n
    unfold fracDigits
    rw [List.length_append]
    simp [ih (n / 10)]

theorem digitChar_isDigit (m : Nat) (h : m < 10) : (Char.ofNat (48 + m)).isDigit = true := by
  interval_cases m <;> decide

theorem natDigitsBound_digits : ∀ (m n : Nat), (natDigitsBound m n).all Char.isDigit = true := by
  intro m
  induction m with
  | zero => intro n; rfl
  | succ m ih =>
    intro n
    unfold natDigitsBound
    by_cases h10 : n < 10
    · rw [if_pos h10]
      simp [digitChar_isDigit n h10]
    · rw [if_neg h10]
      rw [List.all_append]
      simp [ih (n / 10), digitChar_isDigit (n % 10) (Nat.mod_lt n (by omega))]

theorem natDigits_digits (n : Nat) : (natDigits n).all Char.isDigit = true :=
  natDigitsBound_digits (n + 1) n

theorem fracDigits_digits : ∀ (p n : Nat), (fracDigits p n).all Char.isDigit = true := by
  intro p
  induction p with
  | zero => intro n; rfl
  | succ p ih =>
    intro n
    unfold fracDigits
    rw [List.all_append]
    simp [ih (n / 10), digitChar_isDigit (n % 10) (Nat.mod_lt n (by omega))]

theorem padZeros_length (w : Nat) (s : String) (h : s.length ≤ w) :
    (padZeros w s).length = w := by
  simp only [padZeros, String.length_append, String.length_mk, List.length_replicate]
  omega

theorem rustPadNat_length (w n : Nat) (h : n < 10 ^ w) (hw : 0 < w) :
    (rustPadNat w n).length = w := by
  unfold rustPadNat
  refine padZeros_length w _ ?_
  show (natDigits n).length ≤ w
  exact natDigits_length_le h hw

theorem rustPadInt_length_nonneg (w : Nat) (y : Int) (hy : 0 ≤ y) (h : y.natAbs < 10 ^ w)
    (hw : 0 < w) : (rustPadInt w y).length = w := by
  unfold rustPadInt
  rw [if_neg (not_lt.mpr hy)]
  refine padZeros_length w _ ?_
  show (natDigits y.natAbs).length ≤ w
  exact natDigits_length_le h hw

theorem roundHalfEven_nonneg (x : ℚ) (h : 0 ≤ x) : 0 ≤ roundHalfEven x := by
  have hf : 0 ≤ ⌊x⌋ := Int.floor_nonneg.mpr h
  simp only [roundHalfEven]
  split_ifs <;> omega

/-- C7: a Date is rendered as 8 characters DDMMYYYY, zero-padded pieces
with no separators (for calendar dates with 4-digit years); a
Decimal(value, precision) renders as the value rounded to `precision`
fractional digits with exactly `precision` digit characters after a
comma, the integer part made only of digit characters (no thousands
separator, no leading plus); and the four pinned examples hold:
encode(1234.5678, 2) = "1234,57", encode(1234.5678, 0) = "1235",
encode(0.01, 2) = "0,01", encode(10000, 2) = "10000,00", and
encode(2023-12-31) = "31122023". -/
theorem C7_field_encoding (y : Int) (mo dy : Nat) (q : ℚ) (p : Nat)
    (hy0 : 0 ≤ y) (hy : y ≤ 9999) (hmo : mo ≤ 99) (hdy : dy ≤ 99)
    (hq : 0 ≤ q) (hp : 0 < p) :
    (Field.fmt (.date ⟨y, mo, dy⟩) =
        rustPadNat 2 dy ++ rustPadNat 2 mo ++ rustPadInt 4 y ∧
      (Field.fmt (.date ⟨y, mo, dy⟩)).length = 8) ∧
    (∃ i f : String, Field.fmt (.decimalNumber q p) = i ++ "," ++ f ∧
      i.data.all Char.isDigit = true ∧ f.data.all Char.isDigit = true ∧
      f.length = p) ∧
    (Field.fmt (.decimalNumber (12345678 / 10000) 2) = "1234,57" ∧
      Field.fmt (.decimalNumber (12345678 / 10000) 0) = "1235" ∧
      Field.fmt (.decimalNumber (1 / 100) 2) = "0,01" ∧
      Field.fmt (.decimalNumber 10000 2) = "10000,00" ∧
      Field.fmt (.date ⟨2023, 12, 31⟩) = "31122023") := by
  refine ⟨⟨rfl, ?_⟩, ?_, by with_unfolding_all decide, by with_unfolding_all decide,
    by with_unfolding_all decide, by with_unfolding_all decide, by decide⟩
  · have hdy2 : dy < 10 ^ 2 := by
      have h100 : (10 : Nat) ^ 2 = 100 := by norm_num
      omega
    have hmo2 : mo < 10 ^ 2 := by
      have h100 : (10 : Nat) ^ 2 = 100 := by norm_num
      omega
    have hy4 : y.natAbs < 10 ^ 4 := by
      have h4 : (10 : Nat) ^ 4 = 10000 := by norm_num
      omega
    show (rustPadNat 2 dy ++ rustPadNat 2 mo ++ rustPadInt 4 y).length = 8
    rw [String.length_append, String.length_append,
      rustPadNat_length 2 dy hdy2 (by omega), rustPadNat_length 2 mo hmo2 (by omega),
      rustPadInt_length_nonneg 4 y hy0 hy4 (by omega)]
  · have hx : (0 : ℚ) ≤ q * 10 ^ p := mul_nonneg hq (by positivity)
    have hn : 0 ≤ roundHalfEven (q * 10 ^ p) := roundHalfEven_nonneg _ hx
    refine ⟨natRepr ((roundHalfEven (q * 10 ^ p)).natAbs / 10 ^ p),
      String.mk (fracDigits p ((roundHalfEven (q * 10 ^ p)).natAbs % 10 ^ p)), ?_, ?_, ?_, ?_⟩
    · show (let n := roundHalfEven (q * 10 ^ p)
        let sign := if n < 0 then "-" else ""
        let ip := n.natAbs / 10 ^ p
        let fp := n.natAbs % 10 ^ p
        if p = 0 then sign ++ natRepr ip
        else sign ++ natRepr ip ++ "," ++ String.mk (fracDigits p fp)) = _
      simp only [if_neg (not_lt.mpr hn), if_neg (Nat.pos_iff_ne_zero.mp hp),
        String.empty_append]
    · exact natDigits_digits _
    · exact fracDigits_digits p _
    · rw [String.length_mk]
      exact fracDigits_length p _

set_option maxRecDepth 10000 in
theorem C7_witness :
    (0 : Int) ≤ 2023 ∧ (0 : ℚ) ≤ 1 / 100 ∧
    (Field.fmt (.date ⟨2023, 12, 31⟩)).length = 8 ∧
    (∃ i f : String, Field.fmt (.decimalNumber (1 / 100) 2) = i ++ "," ++ f ∧
      i.data.all Char.isDigit = true ∧ f.data.all Char.isDigit = true ∧
      f.length = 2) ∧
    Field.fmt (.decimalNumber 10000 2) = "10000,00" :=
  ⟨by decide, by norm_num,
   (C7_field_encoding 2023 12 31 (1 / 100) 2 (by decide) (by decide) (by decide) (by decide)
      (by norm_num) (by decide)).1.2,
   (C7_field_encoding 2023 12 31 (1 / 100) 2 (by decide) (by decide) (by decide) (by decide)
      (by norm_num) (by decide)).2.1,
   (C7_field_encoding 2023 12 31 (1 / 100) 2 (by decide) (by decide) (by decide) (by decide)
      (by norm_num) (by decide)).2.2.2.2.2.1⟩

end K2R
